import Mathlib

/-!
Verification development for the Lab-Report-Analyzer repository.

The repository ships a React front end (`src/App.jsx`); its submit handler
`handleSubmit` and display helper `getColorClasses` are embedded here as pure
Lean functions over an explicit form-state record.  The back-end Lab
Interpretation Engine (reference-range catalog, value classifier, derived
metrics, result aggregator) is not part of the source tree; those components
are modelled from the design document and are marked as such in their doc
comments.

JavaScript numbers that can be `NaN` are modelled as `Option ℚ`
(`none` = `NaN`); strings are Lean `String`s.
-/

/-- A digit character, `'0'`..`'9'`. -/
def isDigit (c : Char) : Bool := decide ('0' ≤ c ∧ c ≤ '9')

/-- Numeric value of a digit character. -/
def digitVal (c : Char) : ℕ := c.toNat - '0'.toNat

/-- The natural number denoted by a list of digit characters (base 10). -/
def digitsToNat (ds : List Char) : ℕ := ds.foldl (fun a c => 10 * a + digitVal c) 0

/-- Model of JavaScript `parseInt(s)` (default radix 10, hexadecimal prefix
not modelled): skip leading whitespace, read an optional sign and the longest
run of decimal digits; `none` models the `NaN` returned when no digit is
found. -/
def parseIntChars (cs : List Char) : Option Int :=
  let cs := cs.dropWhile Char.isWhitespace
  match cs with
  | '-' :: rest =>
      let ds := rest.takeWhile isDigit
      if ds = [] then none else some (-(digitsToNat ds : Int))
  | '+' :: rest =>
      let ds := rest.takeWhile isDigit
      if ds = [] then none else some (digitsToNat ds : Int)
  | _ =>
      let ds := cs.takeWhile isDigit
      if ds = [] then none else some (digitsToNat ds : Int)

/-- `parseInt` on strings. -/
def parseInt (s : String) : Option Int := parseIntChars s.data

/-- Exponent suffix of a JavaScript float literal: `e`/`E`, optional sign,
digits.  Returns the signed exponent, `0` when no well-formed exponent
follows (JavaScript ignores a dangling `e`). -/
def parseExponent (cs : List Char) : Int :=
  match cs with
  | 'e' :: rest | 'E' :: rest =>
      match rest with
      | '-' :: ds =>
          let ds := ds.takeWhile isDigit
          if ds = [] then 0 else -(digitsToNat ds : Int)
      | '+' :: ds =>
          let ds := ds.takeWhile isDigit
          if ds = [] then 0 else (digitsToNat ds : Int)
      | ds =>
          let ds := ds.takeWhile isDigit
          if ds = [] then 0 else (digitsToNat ds : Int)
  | _ => 0

/-- Model of JavaScript `parseFloat(s)` (the literal `Infinity` is not
modelled): skip leading whitespace, read an optional sign, an integer part,
an optional fractional part and an optional exponent, ignoring any trailing
garbage; `none` models `NaN` (no digit found at all). -/
def parseFloatChars (cs : List Char) : Option ℚ :=
  let cs := cs.dropWhile Char.isWhitespace
  let sign : ℚ := match cs with
    | '-' :: _ => -1
    | _ => 1
  let cs := match cs with
    | '-' :: rest => rest
    | '+' :: rest => rest
    | _ => cs
  let intPart := cs.takeWhile isDigit
  let rest := cs.dropWhile isDigit
  let fracPart := match rest with
    | '.' :: r => r.takeWhile isDigit
    | _ => []
  let rest2 := match rest with
    | '.' :: r => r.dropWhile isDigit
    | _ => rest
  if intPart = [] ∧ fracPart = [] then none
  else
    let mantissa : ℚ :=
      (digitsToNat intPart : ℚ) + (digitsToNat fracPart : ℚ) / (10 : ℚ) ^ fracPart.length
    some (sign * mantissa * (10 : ℚ) ^ (parseExponent rest2))

/-- `parseFloat` on strings. -/
def parseFloat (s : String) : Option ℚ := parseFloatChars s.data

/-- Patient gender: the form's `<select>` offers exactly `male` and `female`
and is initialised to `male`, so the state is a closed two-value enumeration. -/
inductive Gender
  | male
  | female
deriving DecidableEq

/-- One row of the lab-values form (`src/App.jsx`, `addLabValue` /
`updateLabValue`): every field is held as a string by the controlled inputs. -/
structure LabValueForm where
  test_name : String
  value : String
  unit : String
  panel : String
deriving DecidableEq

/-- The form state of `AnalyzeTab` (`src/App.jsx`): `patientAge` and
`medications` are free-text inputs, `patientGender` a closed select,
`labValues` the ordered list of rows. -/
structure FormState where
  patientAge : String
  patientGender : Gender
  medications : String
  labValues : List LabValueForm
deriving DecidableEq

/-- One entry of the request's `lab_values` array: `handleSubmit` spreads the
form row and replaces `value` by `parseFloat(v.value)` (`none` = `NaN`). -/
structure LabValueReq where
  test_name : String
  value : Option ℚ
  unit : String
  panel : String
deriving DecidableEq

/-- The JSON body `handleSubmit` posts to `/analyze-lab`
(`src/App.jsx` lines 110–118). -/
structure AnalyzeRequest where
  patient_age : Option Int
  patient_gender : Gender
  lab_values : List LabValueReq
  current_medications : List String
deriving DecidableEq

/-- Outcome of the synchronous validation-and-build part of `handleSubmit`:
either a validation error shown via `setError` (the function returns without
sending anything), or the request body it sends. -/
inductive SubmitOutcome
  | validationError (msg : String)
  | request (body : AnalyzeRequest)
deriving DecidableEq

/-- `handleSubmit` from `src/App.jsx` (lines 90–119), up to the network call:
JavaScript's falsiness test `!patientAge` on the string state is emptiness,
as is `!v.test_name || !v.value` on the row fields; the request body mirrors
the `JSON.stringify` argument literally. -/
def handleSubmit (fs : FormState) : SubmitOutcome :=
  if fs.patientAge = "" ∨ fs.labValues = [] then
    .validationError "Please enter patient age and at least one lab value"
  else if fs.labValues.filter (fun v => v.test_name = "" ∨ v.value = "") ≠ [] then
    .validationError "Please fill all lab value fields"
  else
    .request
      { patient_age := parseInt fs.patientAge
        patient_gender := fs.patientGender
        lab_values := fs.labValues.map (fun v =>
          { test_name := v.test_name
            value := parseFloat v.value
            unit := v.unit
            panel := v.panel })
        current_medications :=
          if fs.medications = "" then []
          else (fs.medications.splitOn ",").map String.trim }

/-- The request shape the spec prescribes (`AnalyzeRequest` in §6): age
integer-parsed, gender passed through, each lab row kept with its value
converted to a number, medications comma-split and trimmed in input order,
empty when the field is blank.  Written from the spec's words, to be compared
with the body `handleSubmit` builds. -/
def analyzeRequestSpec (fs : FormState) : AnalyzeRequest :=
  { patient_age := parseInt fs.patientAge
    patient_gender := fs.patientGender
    lab_values := fs.labValues.map (fun v =>
      { test_name := v.test_name
        value := parseFloat v.value
        unit := v.unit
        panel := v.panel })
    current_medications :=
      if fs.medications = "" then []
      else (fs.medications.splitOn ",").map String.trim }

/-- The Tailwind class triple `getColorClasses` returns. -/
structure ColorClasses where
  bg : String
  text : String
  border : String
deriving DecidableEq

/-- The property keys every JavaScript object literal inherits from
`Object.prototype`: accessing any of them on `colorMap` yields a truthy
member (a function, or the prototype object for `__proto__`), not
`undefined`. -/
def protoKeys : List String :=
  ["constructor", "hasOwnProperty", "isPrototypeOf", "propertyIsEnumerable",
   "toLocaleString", "toString", "valueOf", "__proto__",
   "__defineGetter__", "__defineSetter__", "__lookupGetter__", "__lookupSetter__"]

/-- Result of the JavaScript member access `colorMap[color]`, and hence of
`getColorClasses`: one of the map's own class triples, a truthy member
inherited from `Object.prototype` (whose `.bg`/`.text`/`.border` are
`undefined`), or `undefined` for any other key. -/
inductive JsMember
  | triple (c : ColorClasses)
  | inherited (name : String)
  | undefinedM
deriving DecidableEq

/-- The lookup `colorMap[c]` inside `getColorClasses` (`src/App.jsx`
lines 340–347): the object literal's four own keys shadow the prototype, a
key naming an `Object.prototype` member finds that truthy inherited member,
and every other key yields `undefined`. -/
def colorMapLookup (c : String) : JsMember :=
  if c = "green" then .triple ⟨"bg-green-100", "text-green-800", "border-green-300"⟩
  else if c = "yellow" then .triple ⟨"bg-yellow-100", "text-yellow-800", "border-yellow-300"⟩
  else if c = "orange" then .triple ⟨"bg-orange-100", "text-orange-800", "border-orange-300"⟩
  else if c = "red" then .triple ⟨"bg-red-100", "text-red-800", "border-red-300"⟩
  else if c ∈ protoKeys then .inherited c
  else .undefinedM

/-- `getColorClasses` (`src/App.jsx` lines 340–348): `colorMap[color] ||
colorMap.green`; the `||` keeps whatever truthy value the lookup found — an
own triple or an inherited prototype member — and falls back to the green
triple only on `undefined`.  The argument is `Option String` because callers
pass possibly `undefined` fields (`none` = `undefined`, which indexes the
key string "undefined", an absent key, and falls through to green). -/
def getColorClasses (color : Option String) : JsMember :=
  match color with
  | some c =>
      match colorMapLookup c with
      | .triple t => .triple t
      | .inherited n => .inherited n
      | .undefinedM => .triple ⟨"bg-green-100", "text-green-800", "border-green-300"⟩
  | none => .triple ⟨"bg-green-100", "text-green-800", "border-green-300"⟩

/-! ## Lab Interpretation Engine, modelled from the spec

The engine itself (a FastAPI back end) is not in the source tree; only the
front end is.  The definitions below are therefore modelled from the design
document (§3–§4.5).  Where the spec leaves a constant open (the exact
mild/moderate/severe distance cutoffs, the number of decimal places of the
cholesterol ratios), a concrete choice is fixed here and named. -/

/-- Modelled from the spec: severity tier of a classified value (§3,
`ClassifiedValue`). -/
inductive Tier
  | normal
  | mild_abnormal
  | moderate_abnormal
  | severe_abnormal
  | critical
deriving DecidableEq

/-- Numeric rank of a tier, used to state monotonicity of severity. -/
def Tier.rank : Tier → ℕ
  | .normal => 0
  | .mild_abnormal => 1
  | .moderate_abnormal => 2
  | .severe_abnormal => 3
  | .critical => 4

/-- Modelled from the spec: a `ReferenceRange` (§3): a normal band
`[low, high]` plus optional critical-low/critical-high thresholds.  The
demographic variant selector is resolved by the catalog lookup and does not
appear on the range itself. -/
structure ReferenceRange where
  low : ℚ
  high : ℚ
  criticalLow : Option ℚ
  criticalHigh : Option ℚ
deriving DecidableEq

/-- The spec's invariant on a reference range (§3): `low ≤ high`, and
critical thresholds, when present, lie strictly outside the normal band on
their respective side. -/
def ReferenceRange.WF (r : ReferenceRange) : Prop :=
  r.low ≤ r.high ∧
  (∀ cl ∈ r.criticalLow, cl < r.low) ∧
  (∀ ch ∈ r.criticalHigh, r.high < ch)

/-- Modelled from the spec: a value is beyond a critical threshold (§4.2,
§8 scenario "hemoglobin below critical-low threshold"): strictly below the
critical-low or strictly above the critical-high threshold, when present. -/
def beyondCritical (r : ReferenceRange) (v : ℚ) : Bool :=
  (match r.criticalLow with
   | some cl => decide (v < cl)
   | none => false) ||
  (match r.criticalHigh with
   | some ch => decide (ch < v)
   | none => false)

/-- Distance of a value from the nearest edge of the normal band; `0` inside
the closed band. -/
def bandDistance (r : ReferenceRange) (v : ℚ) : ℚ :=
  if v < r.low then r.low - v
  else if r.high < v then v - r.high
  else 0

/-- Mild/moderate boundary of the proportional-distance bucketing.  The spec
(§9) leaves the exact ratio open; fixed here at 1/4 of the band width. -/
def mildCutoff : ℚ := 1 / 4

/-- Moderate/severe boundary of the proportional-distance bucketing.  The
spec (§9) leaves the exact ratio open; fixed here at 1/2 of the band width. -/
def moderateCutoff : ℚ := 1 / 2

/-- Modelled from the spec (§4.2): bucket an out-of-band value by its
distance from the nearest band edge, proportional to the band width, using
the fixed cutoffs. -/
def severityBucket (r : ReferenceRange) (d : ℚ) : Tier :=
  let width := r.high - r.low
  if d ≤ mildCutoff * width then .mild_abnormal
  else if d ≤ moderateCutoff * width then .moderate_abnormal
  else .severe_abnormal

/-- Modelled from the spec: the Value Classifier (§4.2).  Critical thresholds
are compared first; otherwise the closed normal band yields `normal`;
otherwise the proportional distance from the nearest edge is bucketed. -/
def classifyValue (r : ReferenceRange) (v : ℚ) : Tier :=
  if beyondCritical r v then .critical
  else if r.low ≤ v ∧ v ≤ r.high then .normal
  else severityBucket r (bandDistance r v)

/-- Modelled from the spec: a `LabValueInput` (§3) as the engine receives it
(numeric value already validated). -/
structure LabValue where
  test_name : String
  value : ℚ
  unit : String
  panel : String
deriving DecidableEq

/-- Modelled from the spec (§4.1): normalized lookup key — case-insensitive,
whitespace-trimmed test name. -/
def normalizeName (s : String) : String := s.trim.toLower

/-- Modelled from the spec: a `ClassifiedValue` (§3) — the input joined with
its resolved range and tier. -/
structure ClassifiedValue where
  input : LabValue
  range : ReferenceRange
  tier : Tier
deriving DecidableEq

/-- Modelled from the spec: the Reference Range Catalog (§4.1) abstracted as
a lookup on the normalized test name; `none` is the "not found" signal
(unclassifiable value).  Demographic variants are resolved inside the
lookup. -/
def Catalog : Type := String → Option ReferenceRange

/-- Modelled from the spec (§4.5): run the classifier over every input in
order, splitting classified values from unrecognized ones, both in input
order. -/
def classifyAll (cat : Catalog) : List LabValue → List ClassifiedValue × List LabValue
  | [] => ([], [])
  | v :: rest =>
      let p := classifyAll cat rest
      match cat (normalizeName v.test_name) with
      | some r => (⟨v, r, classifyValue r v.value⟩ :: p.1, p.2)
      | none => (p.1, v :: p.2)

/-- Number of classified values carrying a given tier. -/
def countTier (t : Tier) (cs : List ClassifiedValue) : ℕ :=
  (cs.filter (fun c => c.tier = t)).length

/-- Modelled from the spec: the `results_summary` block of `AnalysisResult`
(§6). -/
structure ResultsSummary where
  total_tests : ℕ
  normal_count : ℕ
  abnormal_count : ℕ
  critical_count : ℕ
deriving DecidableEq

/-- Modelled from the spec (§4.5): tally the tiers — critical count = tier
critical, abnormal count = mild+moderate+severe, normal count = tier normal;
total = number of classified (not unrecognized) values. -/
def makeSummary (cs : List ClassifiedValue) : ResultsSummary :=
  { total_tests := cs.length
    normal_count := countTier .normal cs
    abnormal_count :=
      countTier .mild_abnormal cs + countTier .moderate_abnormal cs +
        countTier .severe_abnormal cs
    critical_count := countTier .critical cs }

/-- A tier counted in `abnormal_count`: mild, moderate or severe. -/
def Tier.isAbnormal : Tier → Bool
  | .mild_abnormal => true
  | .moderate_abnormal => true
  | .severe_abnormal => true
  | _ => false

/-- Modelled from the spec (§4.3): first value in the batch whose normalized
test name matches, `none` when the test is absent. -/
def findValue (name : String) (vs : List LabValue) : Option ℚ :=
  match vs.find? (fun v => normalizeName v.test_name = name) with
  | some v => some v.value
  | none => none

/-- Round to one decimal place — the spec (§4.3) fixes "a fixed number of
decimal places" without naming it; one is chosen here. -/
def roundTo1 (q : ℚ) : ℚ := (round (10 * q) : ℚ) / 10

/-- Modelled from the spec: the cholesterol-ratio part of
`calculated_metrics` (§4.3, §6): each ratio is computed only if both of its
operands are present and HDL is non-zero, otherwise omitted (`none`). -/
structure CalculatedMetrics where
  ratio_tc_hdl : Option ℚ
  ratio_ldl_hdl : Option ℚ
deriving DecidableEq

/-- Modelled from the spec (§4.3): compute the cholesterol ratios, guarding
the division — a ratio is omitted when an operand is absent or HDL is zero,
never producing a division error or infinity. -/
def computeRatios (vs : List LabValue) : CalculatedMetrics :=
  { ratio_tc_hdl :=
      match findValue "total cholesterol" vs, findValue "hdl" vs with
      | some tc, some h => if h = 0 then none else some (roundTo1 (tc / h))
      | _, _ => none
    ratio_ldl_hdl :=
      match findValue "ldl" vs, findValue "hdl" vs with
      | some ldl, some h => if h = 0 then none else some (roundTo1 (ldl / h))
      | _, _ => none }

/-- Modelled from the spec: the `AnalysisResult` (§3, §6), restricted to the
blocks this development verifies (summary counts, critical list, abnormality
list, cholesterol ratios, unrecognized values). -/
structure AnalysisResult where
  results_summary : ResultsSummary
  critical_values : List ClassifiedValue
  abnormalities : List ClassifiedValue
  calculated_metrics : CalculatedMetrics
  unrecognized : List LabValue
deriving DecidableEq

/-- Modelled from the spec: the Result Aggregator (§4.5) over a non-empty,
validated batch: classify every value in order, tally tiers, keep the
critical and abnormal lists as order-preserving filters of the classified
list, compute the guarded ratios, and echo the unrecognized values. -/
def analyze (cat : Catalog) (vs : List LabValue) : AnalysisResult :=
  let p := classifyAll cat vs
  { results_summary := makeSummary p.1
    critical_values := p.1.filter (fun c => c.tier = .critical)
    abnormalities := p.1.filter (fun c => c.tier.isAbnormal)
    calculated_metrics := computeRatios vs
    unrecognized := p.2 }

/-! ## Theorems on the front end (`src/App.jsx`) -/

/-- C1: if the patient age field is empty or the lab-values list is empty,
`handleSubmit` reports the validation error and returns without building or
sending any request, so no `AnalysisResult` and no partial result can be
produced. -/
theorem handleSubmit_failFast (fs : FormState)
    (h : fs.patientAge = "" ∨ fs.labValues = []) :
    handleSubmit fs =
      SubmitOutcome.validationError "Please enter patient age and at least one lab value" := by
  unfold handleSubmit
  rw [if_pos h]

/-- Witness for `handleSubmit_failFast`: the empty age field with one filled
lab row triggers the fail-fast validation error. -/
theorem handleSubmit_failFast_witness :
    handleSubmit ⟨"", Gender.male, "", [⟨"Hemoglobin", "12", "g/dL", "CBC"⟩]⟩ =
      SubmitOutcome.validationError "Please enter patient age and at least one lab value" :=
  handleSubmit_failFast _ (Or.inl rfl)

/-- C2 counterexample: the non-numeric value `"abc"` is not rejected —
`handleSubmit` builds and sends a request in which the value has been
silently coerced by `parseFloat` to `NaN` (modelled `none`). -/
theorem handleSubmit_coerces_nonNumeric :
    parseFloat "abc" = none ∧
    handleSubmit ⟨"45", Gender.male, "", [⟨"Glucose", "abc", "mg/dL", "Glucose"⟩]⟩ =
      SubmitOutcome.request
        (analyzeRequestSpec ⟨"45", Gender.male, "", [⟨"Glucose", "abc", "mg/dL", "Glucose"⟩]⟩) ∧
    (analyzeRequestSpec
        ⟨"45", Gender.male, "", [⟨"Glucose", "abc", "mg/dL", "Glucose"⟩]⟩).lab_values =
      [⟨"Glucose", none, "mg/dL", "Glucose"⟩] :=
  ⟨by decide, rfl, by decide⟩

/-- C2 as amended: entries whose value is missing (the empty string) are
rejected with the input-validation error "Please fill all lab value fields";
non-empty non-numeric values are not rejected but coerced by `parseFloat`. -/
theorem handleSubmit_rejects_missingValue (fs : FormState)
    (hage : fs.patientAge ≠ "")
    (hmem : ∃ v ∈ fs.labValues, v.value = "") :
    handleSubmit fs = SubmitOutcome.validationError "Please fill all lab value fields" := by
  obtain ⟨v, hv, hval⟩ := hmem
  have hne : fs.labValues ≠ [] := by
    intro h
    rw [h] at hv
    exact absurd hv (List.not_mem_nil v)
  unfold handleSubmit
  rw [if_neg (by tauto), if_pos]
  intro hfil
  have hvin : v ∈ fs.labValues.filter (fun v => v.test_name = "" ∨ v.value = "") := by
    rw [List.mem_filter]
    exact ⟨hv, by simp [hval]⟩
  rw [hfil] at hvin
  exact absurd hvin (List.not_mem_nil v)

/-- Witness for `handleSubmit_rejects_missingValue`: a row with an empty
value field is rejected. -/
theorem handleSubmit_rejects_missingValue_witness :
    handleSubmit ⟨"45", Gender.male, "", [⟨"Glucose", "", "mg/dL", "Glucose"⟩]⟩ =
      SubmitOutcome.validationError "Please fill all lab value fields" :=
  handleSubmit_rejects_missingValue _ (by decide)
    ⟨⟨"Glucose", "", "mg/dL", "Glucose"⟩, by decide, rfl⟩

/-- C7 counterexample: the form state with age field `"-5"` and one filled
lab row passes validation, and the request it sends carries
`patient_age = -5`, a negative integer — the claimed non-negativity does not
hold. -/
theorem handleSubmit_negative_age :
    handleSubmit ⟨"-5", Gender.male, "", [⟨"Glucose", "100", "mg/dL", "Glucose"⟩]⟩ =
      SubmitOutcome.request
        (analyzeRequestSpec ⟨"-5", Gender.male, "", [⟨"Glucose", "100", "mg/dL", "Glucose"⟩]⟩) ∧
    (analyzeRequestSpec
        ⟨"-5", Gender.male, "", [⟨"Glucose", "100", "mg/dL", "Glucose"⟩]⟩).patient_age =
      some (-5) ∧
    (-5 : Int) < 0 :=
  ⟨rfl, by decide, by decide⟩

/-- C7 as amended: for every form state passing validation, the request body
matches the `AnalyzeRequest` shape — `patient_age` is the integer parse of
the age field (not checked for non-negativity), `patient_gender` is the
male/female selection, every lab entry keeps `test_name`, `unit` and `panel`
with the value converted to a number, and `current_medications` is the
comma-split, trimmed medication list in input order, empty when the field is
blank. -/
theorem handleSubmit_builds_specRequest (fs : FormState)
    (hage : fs.patientAge ≠ "") (hvals : fs.labValues ≠ [])
    (hfields : ∀ v ∈ fs.labValues, v.test_name ≠ "" ∧ v.value ≠ "") :
    handleSubmit fs = SubmitOutcome.request (analyzeRequestSpec fs) := by
  have hfil : fs.labValues.filter (fun v => v.test_name = "" ∨ v.value = "") = [] := by
    rw [List.filter_eq_nil_iff]
    intro v hv
    have h := hfields v hv
    simp [h.1, h.2]
  unfold handleSubmit analyzeRequestSpec
  rw [if_neg (by tauto), if_neg (by rw [ne_eq, not_not]; exact hfil)]

/-- Witness for `handleSubmit_builds_specRequest`: a fully filled form
produces the spec-shaped request. -/
theorem handleSubmit_builds_specRequest_witness :
    handleSubmit ⟨"45", Gender.male, " Metformin , Lisinopril",
        [⟨"Glucose", "100", "mg/dL", "Glucose"⟩]⟩ =
      SubmitOutcome.request
        (analyzeRequestSpec ⟨"45", Gender.male, " Metformin , Lisinopril",
          [⟨"Glucose", "100", "mg/dL", "Glucose"⟩]⟩) :=
  handleSubmit_builds_specRequest _ (by decide) (by decide) (by decide)

/-- C10 counterexample: the key `"constructor"` is neither of the four
colors, yet `colorMap["constructor"]` finds the truthy member inherited from
`Object.prototype`, so the `||` fallback never fires and `getColorClasses`
returns that inherited member instead of the green class triple. -/
theorem getColorClasses_prototype_leak :
    getColorClasses (some "constructor") = JsMember.inherited "constructor" ∧
    getColorClasses (some "constructor") ≠
      JsMember.triple ⟨"bg-green-100", "text-green-800", "border-green-300"⟩ :=
  ⟨rfl, by decide⟩

/-- C10 as amended: `getColorClasses` never throws — each of the four known
colors maps to its own class triple; a key naming a member inherited from
`Object.prototype` (such as `"constructor"` or `"toString"`) is truthy, so
the fallback does not trigger and the inherited member is returned rather
than a class triple; every other input (including `undefined`, modelled as
`none`) falls back to the green triple. -/
theorem getColorClasses_cases :
    getColorClasses (some "green") =
      JsMember.triple ⟨"bg-green-100", "text-green-800", "border-green-300"⟩ ∧
    getColorClasses (some "yellow") =
      JsMember.triple ⟨"bg-yellow-100", "text-yellow-800", "border-yellow-300"⟩ ∧
    getColorClasses (some "orange") =
      JsMember.triple ⟨"bg-orange-100", "text-orange-800", "border-orange-300"⟩ ∧
    getColorClasses (some "red") =
      JsMember.triple ⟨"bg-red-100", "text-red-800", "border-red-300"⟩ ∧
    (∀ s : String, s ∈ protoKeys → getColorClasses (some s) = JsMember.inherited s) ∧
    ∀ c : Option String,
      c ∉ [some "green", some "yellow", some "orange", some "red"] →
      c ∉ protoKeys.map some →
        getColorClasses c =
          JsMember.triple ⟨"bg-green-100", "text-green-800", "border-green-300"⟩ := by
  refine ⟨rfl, rfl, rfl, rfl, ?_, ?_⟩
  · intro s hs
    fin_cases hs <;> rfl
  · intro c hc hp
    match c with
    | none => rfl
    | some s =>
      have h1 : s ≠ "green" := fun h => hc (by simp [h])
      have h2 : s ≠ "yellow" := fun h => hc (by simp [h])
      have h3 : s ≠ "orange" := fun h => hc (by simp [h])
      have h4 : s ≠ "red" := fun h => hc (by simp [h])
      have h5 : s ∉ protoKeys := fun hmem => hp (List.mem_map_of_mem some hmem)
      have hl : colorMapLookup s = JsMember.undefinedM := by
        unfold colorMapLookup
        rw [if_neg h1, if_neg h2, if_neg h3, if_neg h4, if_neg h5]
      show (match colorMapLookup s with
        | JsMember.triple t => JsMember.triple t
        | JsMember.inherited n => JsMember.inherited n
        | JsMember.undefinedM =>
            JsMember.triple ⟨"bg-green-100", "text-green-800", "border-green-300"⟩) = _
      rw [hl]

/-- Witness for `getColorClasses_cases`: the unknown color `"purple"`, which
is not a prototype key either, is rendered with the green triple. -/
theorem getColorClasses_cases_witness :
    getColorClasses (some "purple") =
      JsMember.triple ⟨"bg-green-100", "text-green-800", "border-green-300"⟩ :=
  getColorClasses_cases.2.2.2.2.2 (some "purple") (by decide) (by decide)

/-! ## Theorems on the spec-modelled engine -/

/-- `beyondCritical` holds exactly when the value is strictly past a present
critical threshold. -/
theorem beyondCritical_eq_true_iff (r : ReferenceRange) (v : ℚ) :
    beyondCritical r v = true ↔
      (∃ cl, r.criticalLow = some cl ∧ v < cl) ∨
      (∃ ch, r.criticalHigh = some ch ∧ ch < v) := by
  unfold beyondCritical
  cases r.criticalLow <;> cases r.criticalHigh <;> simp

/-- Every tier rank is at most the rank of `critical`. -/
theorem Tier.rank_le_four (t : Tier) : t.rank ≤ 4 := by
  cases t <;> simp [Tier.rank]

/-- The distance bucketing is monotone: on a well-ordered band, a larger
distance never yields a lower rank. -/
theorem severityBucket_mono (r : ReferenceRange) (hw : r.low ≤ r.high)
    {d₁ d₂ : ℚ} (h : d₁ ≤ d₂) :
    (severityBucket r d₁).rank ≤ (severityBucket r d₂).rank := by
  unfold severityBucket mildCutoff moderateCutoff
  dsimp only
  split_ifs <;> simp [Tier.rank] <;> linarith

/-- C4: a value beyond a critical threshold is classified `critical`,
regardless of how far it is past the normal band — the critical comparison
is made before the normal band. -/
theorem classifyValue_critical_first (r : ReferenceRange) (v : ℚ)
    (h : beyondCritical r v = true) :
    classifyValue r v = Tier.critical := by
  unfold classifyValue
  rw [if_pos h]

/-- Witness for `classifyValue_critical_first`: 50 is past the critical-high
threshold 40 of the band [10, 20]. -/
theorem classifyValue_critical_first_witness :
    classifyValue ⟨10, 20, some 5, some 40⟩ 50 = Tier.critical :=
  classifyValue_critical_first _ _ (by decide)

/-- C5: a value inside the normal band, boundaries included, is classified
`normal` — the normal interval is closed, and the range invariant puts
critical thresholds strictly outside the band. -/
theorem classifyValue_normal_closed (r : ReferenceRange) (v : ℚ)
    (hwf : r.WF) (hlo : r.low ≤ v) (hhi : v ≤ r.high) :
    classifyValue r v = Tier.normal := by
  obtain ⟨-, hcl, hch⟩ := hwf
  have hb : ¬ beyondCritical r v = true := by
    rw [beyondCritical_eq_true_iff]
    rintro (⟨cl, hm, hlt⟩ | ⟨ch, hm, hgt⟩)
    · exact absurd hlt (not_lt.mpr (le_of_lt (lt_of_lt_of_le (hcl cl hm) hlo)))
    · exact absurd hgt (not_lt.mpr (le_of_lt (lt_of_le_of_lt hhi (hch ch hm))))
  unfold classifyValue
  rw [if_neg hb, if_pos ⟨hlo, hhi⟩]

/-- Witness for `classifyValue_normal_closed`: the band boundary value 10 of
the band [10, 20] is classified normal. -/
theorem classifyValue_normal_closed_witness :
    classifyValue ⟨10, 20, some 5, some 40⟩ 10 = Tier.normal :=
  classifyValue_normal_closed _ _
    ⟨by norm_num, by rintro cl ⟨rfl⟩; norm_num, by rintro ch ⟨rfl⟩; norm_num⟩
    (by norm_num) (by norm_num)

/-- C8: severity is monotonic in the distance from the nearest normal-band
edge — of two values on the same side of a well-formed range's band, the one
farther from the band never gets a lower severity rank. -/
theorem classifyValue_severity_monotone (r : ReferenceRange) (v₁ v₂ : ℚ)
    (hwf : r.WF)
    (hside : (v₁ < r.low ∧ v₂ < r.low) ∨ (r.high < v₁ ∧ r.high < v₂))
    (hd : bandDistance r v₁ ≤ bandDistance r v₂) :
    (classifyValue r v₁).rank ≤ (classifyValue r v₂).rank := by
  obtain ⟨hw, hcl, hch⟩ := hwf
  rcases hside with ⟨h1, h2⟩ | ⟨h1, h2⟩
  · have hd1 : bandDistance r v₁ = r.low - v₁ := by
      unfold bandDistance
      rw [if_pos h1]
    have hd2 : bandDistance r v₂ = r.low - v₂ := by
      unfold bandDistance
      rw [if_pos h2]
    have hv : v₂ ≤ v₁ := by
      rw [hd1, hd2] at hd
      linarith
    by_cases hb2 : beyondCritical r v₂ = true
    · have e2 : classifyValue r v₂ = Tier.critical := by
        unfold classifyValue
        rw [if_pos hb2]
      rw [e2]
      exact Tier.rank_le_four _
    · have hb1 : ¬ beyondCritical r v₁ = true := by
        rw [beyondCritical_eq_true_iff] at hb2 ⊢
        rintro (⟨cl, hm, hlt⟩ | ⟨ch, hm, hgt⟩)
        · exact hb2 (Or.inl ⟨cl, hm, lt_of_le_of_lt hv hlt⟩)
        · exact absurd hgt (not_lt.mpr (le_of_lt (lt_of_lt_of_le h1 (le_of_lt
            (lt_of_le_of_lt hw (hch ch hm))))))
      have e1 : classifyValue r v₁ = severityBucket r (bandDistance r v₁) := by
        unfold classifyValue
        rw [if_neg hb1, if_neg (by rintro ⟨h, -⟩; exact absurd h1 (not_lt.mpr h))]
      have e2 : classifyValue r v₂ = severityBucket r (bandDistance r v₂) := by
        unfold classifyValue
        rw [if_neg hb2, if_neg (by rintro ⟨h, -⟩; exact absurd h2 (not_lt.mpr h))]
      rw [e1, e2]
      exact severityBucket_mono r hw hd
  · have hd1 : bandDistance r v₁ = v₁ - r.high := by
      unfold bandDistance
      rw [if_neg (by exact not_lt.mpr (le_of_lt (lt_of_le_of_lt hw h1))), if_pos h1]
    have hd2 : bandDistance r v₂ = v₂ - r.high := by
      unfold bandDistance
      rw [if_neg (by exact not_lt.mpr (le_of_lt (lt_of_le_of_lt hw h2))), if_pos h2]
    have hv : v₁ ≤ v₂ := by
      rw [hd1, hd2] at hd
      linarith
    by_cases hb2 : beyondCritical r v₂ = true
    · have e2 : classifyValue r v₂ = Tier.critical := by
        unfold classifyValue
        rw [if_pos hb2]
      rw [e2]
      exact Tier.rank_le_four _
    · have hb1 : ¬ beyondCritical r v₁ = true := by
        rw [beyondCritical_eq_true_iff] at hb2 ⊢
        rintro (⟨cl, hm, hlt⟩ | ⟨ch, hm, hgt⟩)
        · exact absurd hlt (not_lt.mpr (le_of_lt (lt_of_lt_of_le (lt_of_lt_of_le
            (hcl cl hm) hw) (le_of_lt h1))))
        · exact hb2 (Or.inr ⟨ch, hm, lt_of_lt_of_le hgt hv⟩)
      have e1 : classifyValue r v₁ = severityBucket r (bandDistance r v₁) := by
        unfold classifyValue
        rw [if_neg hb1, if_neg (by rintro ⟨-, h⟩; exact absurd h1 (not_lt.mpr h))]
      have e2 : classifyValue r v₂ = severityBucket r (bandDistance r v₂) := by
        unfold classifyValue
        rw [if_neg hb2, if_neg (by rintro ⟨-, h⟩; exact absurd h2 (not_lt.mpr h))]
      rw [e1, e2]
      exact severityBucket_mono r hw hd

/-- Witness for `classifyValue_severity_monotone`: on the low side of the
band [10, 20], the value 3 (distance 7) ranks at least as severe as the
value 8 (distance 2). -/
theorem classifyValue_severity_monotone_witness :
    (classifyValue ⟨10, 20, some 5, some 40⟩ 8).rank ≤
      (classifyValue ⟨10, 20, some 5, some 40⟩ 3).rank :=
  classifyValue_severity_monotone _ 8 3
    ⟨by norm_num, by rintro cl ⟨rfl⟩; norm_num, by rintro ch ⟨rfl⟩; norm_num⟩
    (Or.inl ⟨by norm_num, by norm_num⟩)
    (by norm_num [bandDistance])

/-- The tier tallies of a classified list partition its length. -/
theorem countTier_partition (cs : List ClassifiedValue) :
    countTier .normal cs +
      (countTier .mild_abnormal cs + countTier .moderate_abnormal cs +
        countTier .severe_abnormal cs) +
      countTier .critical cs = cs.length := by
  induction cs with
  | nil => rfl
  | cons c rest ih =>
    unfold countTier at ih ⊢
    cases h : c.tier <;> simp [List.filter_cons, h] <;> omega

/-- Classified and unrecognized values together account for every input. -/
theorem classifyAll_length (cat : Catalog) (vs : List LabValue) :
    (classifyAll cat vs).1.length + (classifyAll cat vs).2.length = vs.length := by
  induction vs with
  | nil => rfl
  | cons v rest ih =>
    unfold classifyAll
    cases cat (normalizeName v.test_name) <;> simp <;> omega

/-- C3: in every result the tier counts are consistent —
`normal_count + abnormal_count + critical_count = total_tests`, where the
abnormal count tallies mild, moderate and severe tiers; unclassifiable
values are excluded from `total_tests` but reported separately, so
`total_tests` plus the unrecognized count is the input length. -/
theorem analyze_counts_consistent (cat : Catalog) (vs : List LabValue) :
    (analyze cat vs).results_summary.normal_count +
        (analyze cat vs).results_summary.abnormal_count +
        (analyze cat vs).results_summary.critical_count =
      (analyze cat vs).results_summary.total_tests ∧
    (analyze cat vs).results_summary.total_tests +
        (analyze cat vs).unrecognized.length = vs.length := by
  constructor
  · show countTier .normal (classifyAll cat vs).1 +
        (countTier .mild_abnormal (classifyAll cat vs).1 +
          countTier .moderate_abnormal (classifyAll cat vs).1 +
          countTier .severe_abnormal (classifyAll cat vs).1) +
        countTier .critical (classifyAll cat vs).1 = (classifyAll cat vs).1.length
    exact countTier_partition (classifyAll cat vs).1
  · have h := classifyAll_length cat vs
    show (classifyAll cat vs).1.length + (classifyAll cat vs).2.length = vs.length
    exact h

/-- C6: when HDL is absent from the batch or its value is 0, both
cholesterol ratios are omitted from `calculated_metrics` — the division is
guarded, producing no quotient at all rather than an error or an infinite
value. -/
theorem analyze_ratios_guarded (cat : Catalog) (vs : List LabValue)
    (h : findValue "hdl" vs = none ∨ findValue "hdl" vs = some 0) :
    (analyze cat vs).calculated_metrics.ratio_tc_hdl = none ∧
    (analyze cat vs).calculated_metrics.ratio_ldl_hdl = none := by
  have e : (analyze cat vs).calculated_metrics = computeRatios vs := rfl
  rw [e]
  unfold computeRatios
  rcases h with h | h <;> rw [h] <;>
    exact ⟨by cases findValue "total cholesterol" vs <;> simp,
           by cases findValue "ldl" vs <;> simp⟩

/-- Witness for `analyze_ratios_guarded`: a batch without any HDL value has
both ratios omitted. -/
theorem analyze_ratios_guarded_witness :
    (analyze (fun _ => none) []).calculated_metrics.ratio_tc_hdl = none ∧
    (analyze (fun _ => none) []).calculated_metrics.ratio_ldl_hdl = none :=
  analyze_ratios_guarded (fun _ => none) [] (Or.inl rfl)

/-- The classified values keep the input order: their underlying inputs form
a sublist of the input list. -/
theorem classifyAll_inputs_sublist (cat : Catalog) (vs : List LabValue) :
    ((classifyAll cat vs).1.map (fun c => c.input)).Sublist vs := by
  induction vs with
  | nil => simp [classifyAll]
  | cons v rest ih =>
    unfold classifyAll
    dsimp only
    cases cat (normalizeName v.test_name) with
    | none => exact ih.trans (List.sublist_cons_self v rest)
    | some r => simpa using ih.cons₂ v

/-- C9: the engine is a pure function — re-running it on identical input
yields an identical `AnalysisResult` — and the critical and abnormal lists
preserve the input order of the lab values (each projects to a sublist of
the input list, never re-sorted). -/
theorem analyze_deterministic_order_preserving (cat : Catalog) (vs : List LabValue) :
    analyze cat vs = analyze cat vs ∧
    ((analyze cat vs).critical_values.map (fun c => c.input)).Sublist vs ∧
    ((analyze cat vs).abnormalities.map (fun c => c.input)).Sublist vs := by
  refine ⟨rfl, ?_, ?_⟩
  · exact ((List.filter_sublist _).map _).trans (classifyAll_inputs_sublist cat vs)
  · exact ((List.filter_sublist _).map _).trans (classifyAll_inputs_sublist cat vs)
